import Mathlib

/-!
Shallow embedding of the camera session and frame-acquisition pipeline of
`collect_images_headless.py` (class `HikrobotCamera` and the `collect_images`
acquisition loop).

Modelling conventions:
* Every call into the vendor SDK (`MV_CC_...`) is recorded as an `SdkOp` in a
  trace; SDK return statuses are inputs (the environment decides them).
* Raw frame payloads are lists of byte values.
* The OpenCV colour conversions (`cv2.cvtColor`, `COLOR_BAYER_RG2BGR`, ...)
  are external collaborators: a decoded frame records which conversion the
  code requested together with the exact data handed to it.
* A Python call has three observable outcomes: it returns a value, returns
  `None`, or raises; `get_frame`'s outcome type distinguishes all three,
  because two of its decode branches do raise (see `get_frame`'s docstring).
-/

/-- One call into the vendor SDK, as issued by the Python wrapper.  Calls whose
return status the wrapper inspects carry that status. -/
inductive SdkOp where
  | enumDevices
  | createHandle (ret : Int)
  | openDevice (ret : Int)
  | destroyHandle
  | closeDevice
  | getIntValue (name : String)
  | setIntValue (name : String) (v : Int)
  | getEnumValue (name : String)
  | setEnumValue (name : String) (v : Nat)
  | setCommandValue (name : String)
  | startGrabbing (ret : Int)
  | stopGrabbing
  | getOneFrameTimeout (ret : Int)
deriving DecidableEq, Repr

/-- Whether the SDK-side device handle exists after a trace of SDK calls:
`MV_CC_CreateHandle` acquires it exactly when it returns 0, and
`MV_CC_DestroyHandle` releases it. -/
def handleHeld (init : Bool) (ops : List SdkOp) : Bool :=
  ops.foldl
    (fun held op =>
      match op with
      | SdkOp.createHandle r => if r = 0 then true else held
      | SdkOp.destroyHandle => false
      | _ => held)
    init

/-- Whether the SDK-side stream is running after a trace of SDK calls:
`MV_CC_StartGrabbing` starts it exactly when it returns 0, and
`MV_CC_StopGrabbing` stops it. -/
def streamingAfter (init : Bool) (ops : List SdkOp) : Bool :=
  ops.foldl
    (fun g op =>
      match op with
      | SdkOp.startGrabbing r => if r = 0 then true else g
      | SdkOp.stopGrabbing => false
      | _ => g)
    init

/-- Device-side trigger configuration registers touched by
`set_trigger_mode`. -/
structure TriggerConfig where
  triggerMode : Nat
  triggerSource : Nat
  triggerActivation : Nat
deriving DecidableEq, Repr

/-- Effect of one SDK call on the device trigger registers. -/
def applyOp (c : TriggerConfig) : SdkOp → TriggerConfig
  | SdkOp.setEnumValue "TriggerMode" v => { c with triggerMode := v }
  | SdkOp.setEnumValue "TriggerSource" v => { c with triggerSource := v }
  | SdkOp.setEnumValue "TriggerActivation" v => { c with triggerActivation := v }
  | _ => c

/-- Effect of a trace of SDK calls on the device trigger registers. -/
def applyOps (c : TriggerConfig) (ops : List SdkOp) : TriggerConfig :=
  ops.foldl applyOp c

/-- Pixel-format code `BayerRG8` (`0x01080009` in the source). -/
def BAYER_RG8 : Nat := 0x01080009

/-- The four packed multi-bit Bayer codes the source lists on line 218:
`[0x0110000D, 0x010C0027, 0x01100011, 0x010C002B]`, i.e. BayerRG10,
BayerRG10Packed, BayerRG12, BayerRG12Packed. -/
def multibitFormats : List Nat := [0x0110000D, 0x010C0027, 0x01100011, 0x010C002B]

/-- Pixel-format code `Mono8` (`0x01080001` in the source). -/
def MONO8 : Nat := 0x01080001

/-- Pixel-format code packed `BGR8` (`0x02180014` in the source). -/
def BGR8 : Nat := 0x02180014

/-- The pixel-format codes `get_frame` recognizes (all its non-default
branches). -/
def recognized (fmt : Nat) : Prop :=
  fmt = BAYER_RG8 ∨ fmt ∈ multibitFormats ∨ fmt = MONO8 ∨ fmt = BGR8

instance (fmt : Nat) : Decidable (recognized fmt) := by
  unfold recognized
  exact inferInstance

/-- The bit-reduction rule written on line 223 for multi-bit Bayer samples:
`(data16 >> 4).astype(np.uint8)`, i.e. shift right by 4 then keep the low
8 bits.  In the program this line is never reached — line 222 raises first
(see `get_frame`) — so this models the rule as written, not a reachable
computation. -/
def shift12to8 (s : Nat) : Nat := (s >>> 4) % 256

/-- Which OpenCV conversion the decoded data is handed to. -/
inductive Conversion where
  | bayerRG2BGR
  | gray2BGR
  | bgrCopy
deriving DecidableEq, Repr

/-- A successfully decoded frame: the conversion requested from OpenCV and the
exact data handed to it. -/
structure Decoded where
  conv : Conversion
  data : List Nat
deriving DecidableEq, Repr

/-- The three observable outcomes of a `get_frame` call: it returns a decoded
image, returns `None`, or an exception propagates to the caller. -/
inductive GetFrameOutcome where
  | image (d : Decoded)
  | noneResult
  | raised
deriving DecidableEq, Repr

/-- Whether a `get_frame` outcome is a normal return (an image or `None`)
rather than a propagating exception. -/
def returnsNormally : GetFrameOutcome → Bool
  | GetFrameOutcome.raised => false
  | _ => true

/-- `HikrobotCamera.get_frame` (lines 198-240).  `ret` is the status of
`MV_CC_GetOneFrameTimeout`; `h`, `w`, `fmt` are the device-reported
`nHeight`/`nWidth`/`enPixelType` of the fetched frame; `payload` is the
transfer buffer contents.  Branches:

* nonzero fetch status (line 205): returns `None`;
* `BayerRG8` (line 212): `np.frombuffer` reads the first `h*w` bytes as a
  genuine `uint8` grid and hands it to the Bayer demosaic;
* the multi-bit Bayer codes (line 218): **raises**.  `self.pData[:h*w*2]` is a
  Python list (a ctypes slice), so `np.ctypeslib.as_array` builds an `int64`
  array; its `view(np.uint16)` has four times too many elements and
  `reshape((h, w))` raises `ValueError` (and in the degenerate `h*w = 0` case
  the later `cvtColor` raises on an empty image).  Modelled for buffers that
  cover the reported samples (`h*w*2 ≤ payload.length`, the allocation the
  program makes), where the raise is unconditional;
* `Mono8` (line 228): **raises** on every input.  The same ctypes-slice-to-
  list conversion yields an `int64` array; either the reshape fails (short
  buffer) or `cvtColor` rejects the `int64`/empty array at line 230;
* packed `BGR8` (line 234): reshapes and copies the first `h*w*3` values —
  no numpy view, no `cvtColor`, so it returns normally;
* any other code (line 238): prints and returns `None`. -/
def get_frame (ret : Int) (h w fmt : Nat) (payload : List Nat) :
    GetFrameOutcome × List SdkOp :=
  let ops := [SdkOp.getOneFrameTimeout ret]
  if ret ≠ 0 then (GetFrameOutcome.noneResult, ops)
  else if fmt = BAYER_RG8 then
    (GetFrameOutcome.image ⟨Conversion.bayerRG2BGR, payload.take (h * w)⟩, ops)
  else if fmt ∈ multibitFormats then
    (GetFrameOutcome.raised, ops)
  else if fmt = MONO8 then
    (GetFrameOutcome.raised, ops)
  else if fmt = BGR8 then
    (GetFrameOutcome.image ⟨Conversion.bgrCopy, payload.take (h * w * 3)⟩, ops)
  else (GetFrameOutcome.noneResult, ops)

/-- `HikrobotCamera.software_trigger` (lines 193-196): unconditionally sends
the `TriggerSoftware` command and returns whether the SDK accepted it. -/
def software_trigger (sdkRet : Int) : Bool × List SdkOp :=
  (sdkRet == 0, [SdkOp.setCommandValue "TriggerSoftware"])

/-- `HikrobotCamera.set_trigger_mode` (lines 144-168): the SDK writes issued
for the given mode string, paired with whether `ValueError` was raised. -/
def set_trigger_mode (mode : String) : List SdkOp × Bool :=
  if mode = "continuous" then
    ([SdkOp.setEnumValue "TriggerMode" 0], false)
  else if mode = "software" then
    ([SdkOp.setEnumValue "TriggerMode" 1, SdkOp.setEnumValue "TriggerSource" 7], false)
  else if mode = "hardware" then
    ([SdkOp.setEnumValue "TriggerMode" 1, SdkOp.setEnumValue "TriggerSource" 0,
      SdkOp.setEnumValue "TriggerActivation" 0], false)
  else ([], true)

/-- Result of `HikrobotCamera.set_roi`. -/
structure RoiResult where
  offsetX : Int
  offsetY : Int
  ops : List SdkOp
deriving DecidableEq, Repr

/-- `HikrobotCamera.set_roi` (lines 115-142).  `origW`/`origH` are the current
`self.width`/`self.height`; unspecified offsets are centered with Python floor
division (`//`, i.e. `Int.fdiv`); offsets are then clamped by
`max(0, min(offset, orig - requested))`. -/
def set_roi (origW origH w h : Int) (offX offY : Option Int) : RoiResult :=
  let ox0 := match offX with | none => Int.fdiv (origW - w) 2 | some v => v
  let oy0 := match offY with | none => Int.fdiv (origH - h) 2 | some v => v
  let ox := max 0 (min ox0 (origW - w))
  let oy := max 0 (min oy0 (origH - h))
  ⟨ox, oy,
    [SdkOp.setIntValue "Width" w, SdkOp.setIntValue "Height" h,
     SdkOp.setIntValue "OffsetX" ox, SdkOp.setIntValue "OffsetY" oy,
     SdkOp.getIntValue "PayloadSize"]⟩

/-- Environment for one `connect` attempt: whether `_find_camera_by_ip` found
the device, the SDK statuses of handle creation / device opening / the
pixel-format write, and the device-reported parameter values. -/
structure ConnectEnv where
  found : Bool
  createRet : Int
  openRet : Int
  devWidth : Nat
  devHeight : Nat
  devPayload : Nat
  devPixelFormat : Nat
  setFormatRet : Int
  devPayloadAfter : Nat
deriving DecidableEq, Repr

/-- The session fields `connect` leaves behind on success. -/
structure ConnectedInfo where
  width : Nat
  height : Nat
  payloadSize : Nat
  pixelFormat : Nat
deriving DecidableEq, Repr

/-- `HikrobotCamera.connect` (lines 54-99): camera lookup, handle creation
(raise on failure), device open (destroy the handle, then raise, on failure),
parameter reads, and the best-effort switch to `BayerRG8`.  Returns the
session info (`none` when a `RuntimeError` was raised) and the SDK trace. -/
def connect (e : ConnectEnv) : Option ConnectedInfo × List SdkOp :=
  if ¬ e.found then (none, [SdkOp.enumDevices])
  else if e.createRet ≠ 0 then
    (none, [SdkOp.enumDevices, SdkOp.createHandle e.createRet])
  else if e.openRet ≠ 0 then
    (none, [SdkOp.enumDevices, SdkOp.createHandle e.createRet,
      SdkOp.openDevice e.openRet, SdkOp.destroyHandle])
  else
    let baseOps := [SdkOp.enumDevices, SdkOp.createHandle e.createRet,
      SdkOp.openDevice e.openRet, SdkOp.getIntValue "Width",
      SdkOp.getIntValue "Height", SdkOp.getIntValue "PayloadSize",
      SdkOp.getEnumValue "PixelFormat"]
    if e.devPixelFormat ≠ BAYER_RG8 then
      if e.setFormatRet = 0 then
        (some ⟨e.devWidth, e.devHeight, e.devPayloadAfter, BAYER_RG8⟩,
          baseOps ++ [SdkOp.setEnumValue "PixelFormat" BAYER_RG8,
            SdkOp.getIntValue "PayloadSize"])
      else
        (some ⟨e.devWidth, e.devHeight, e.devPayload, e.devPixelFormat⟩,
          baseOps ++ [SdkOp.setEnumValue "PixelFormat" BAYER_RG8])
    else
      (some ⟨e.devWidth, e.devHeight, e.devPayload, e.devPixelFormat⟩, baseOps)

/-- `HikrobotCamera.disconnect` (lines 247-253): when `self.cam` is set, close
the device, destroy the handle and clear `self.cam`; otherwise do nothing.
Returns the new `self.cam`-is-set flag and the SDK trace. -/
def disconnect (camSet : Bool) : Bool × List SdkOp :=
  if camSet then (false, [SdkOp.closeDevice, SdkOp.destroyHandle]) else (false, [])

/-- The per-frame bookkeeping of the `collect_images` loop (lines 306-333):
fold over the per-iteration decode outcomes, counting saved frames and
performed iterations; a `none` outcome is skipped, never aborts the loop. -/
def acquisition_loop (frames : List (Option Decoded)) : Nat × Nat :=
  frames.foldl
    (fun acc f =>
      match f with
      | some _ => (acc.1 + 1, acc.2 + 1)
      | none => (acc.1, acc.2 + 1))
    (0, 0)

/-! ## Helper lemmas -/

theorem acquisition_loop_go (frames : List (Option Decoded)) :
    ∀ a b : Nat,
      (frames.foldl
        (fun acc f =>
          match f with
          | some _ => (acc.1 + 1, acc.2 + 1)
          | none => (acc.1, acc.2 + 1))
        (a, b)).2 = b + frames.length := by
  induction frames with
  | nil => intro a b; simp
  | cons f rest ih =>
    intro a b
    match f with
    | some d => simp only [List.foldl_cons, List.length_cons, ih]; omega
    | none => simp only [List.foldl_cons, List.length_cons, ih]; omega

theorem acquisition_loop_length (frames : List (Option Decoded)) :
    (acquisition_loop frames).2 = frames.length := by
  unfold acquisition_loop
  simpa using acquisition_loop_go frames 0 0

/-! ## Claim theorems -/

/-- Claim C1: for every requested ROI `(w, h)` with `w`, `h` no larger than the
current sensor extent and offsets left unspecified, `set_roi` computes each
offset as the floor of `(sensorDim - requestedDim) / 2`, and the result
satisfies `0 ≤ offset` and `offset + requestedDim ≤ sensorDim`. -/
theorem set_roi_centered (origW origH w h : Int)
    (hw : w ≤ origW) (hh : h ≤ origH) :
    (set_roi origW origH w h none none).offsetX = Int.fdiv (origW - w) 2 ∧
    0 ≤ (set_roi origW origH w h none none).offsetX ∧
    (set_roi origW origH w h none none).offsetX + w ≤ origW ∧
    (set_roi origW origH w h none none).offsetY = Int.fdiv (origH - h) 2 ∧
    0 ≤ (set_roi origW origH w h none none).offsetY ∧
    (set_roi origW origH w h none none).offsetY + h ≤ origH := by
  have hdx : (0 : Int) ≤ origW - w := by omega
  have hdy : (0 : Int) ≤ origH - h := by omega
  have hfx : Int.fdiv (origW - w) 2 = (origW - w) / 2 :=
    Int.fdiv_eq_ediv _ (by norm_num)
  have hfy : Int.fdiv (origH - h) 2 = (origH - h) / 2 :=
    Int.fdiv_eq_ediv _ (by norm_num)
  have hx1 : (origW - w) / 2 ≤ origW - w := by omega
  have hx0 : (0 : Int) ≤ (origW - w) / 2 := by omega
  have hy1 : (origH - h) / 2 ≤ origH - h := by omega
  have hy0 : (0 : Int) ≤ (origH - h) / 2 := by omega
  simp only [set_roi, hfx, hfy, min_eq_left hx1, min_eq_left hy1,
    max_eq_right hx0, max_eq_right hy0]
  refine ⟨trivial, hx0, by omega, trivial, hy0, by omega⟩

/-- Witness for C1: the spec's own instance — a 1920x1200 sensor with a
requested 640x640 ROI yields `offsetX = 640` and `offsetY = 280`, within
bounds. -/
theorem set_roi_centered_witness :
    (set_roi 1920 1200 640 640 none none).offsetX = 640 ∧
    (set_roi 1920 1200 640 640 none none).offsetY = 280 ∧
    0 ≤ (set_roi 1920 1200 640 640 none none).offsetX ∧
    (set_roi 1920 1200 640 640 none none).offsetX + 640 ≤ 1920 ∧
    0 ≤ (set_roi 1920 1200 640 640 none none).offsetY ∧
    (set_roi 1920 1200 640 640 none none).offsetY + 640 ≤ 1200 := by
  have h := set_roi_centered 1920 1200 640 640 (by decide) (by decide)
  exact ⟨by decide, by decide, h.2.1, h.2.2.1, h.2.2.2.2.1, h.2.2.2.2.2⟩

/-- Claim C7: `disconnect` is idempotent — on an already-disconnected session
it is a no-op (no SDK calls), from any state it releases the device and the
handle at most once, a second call performs no release, and it always returns
normally (it is a total function). -/
theorem disconnect_idempotent (c : Bool) :
    disconnect false = (false, []) ∧
    (disconnect c).1 = false ∧
    (disconnect (disconnect c).1).2 = [] ∧
    (disconnect c).2.count SdkOp.destroyHandle ≤ 1 ∧
    (disconnect c).2.count SdkOp.closeDevice ≤ 1 := by
  cases c <;> decide

/-- Claim C8 (code bug): the conversion rule written on line 223,
`(data16 >> 4).astype(np.uint8)`, does map the 12-bit sample `0xFF0` to
`0xFF` — that rule is the code's documented intent ("12bit -> 8bit").  But the
program never reaches it: at the failing input (a fetched 1x1 BayerRG12 frame
whose little-endian payload bytes encode `0xFF0`), line 222 raises
`ValueError` first, so no 12-bit sample ever decodes. -/
theorem shift12to8_FF0 :
    shift12to8 0xFF0 = 0xFF ∧
    (get_frame 0 1 1 0x01100011 [0xF0, 0x0F]).1 = GetFrameOutcome.raised ∧
    returnsNormally (get_frame 0 1 1 0x01100011 [0xF0, 0x0F]).1 = false := by
  decide

/-- Claim C2 counterexample: at a fetched 1x1 BayerRG10 (`0x0110000D`) frame
with the full-scale 10-bit sample `0x3FF` (payload bytes `FF 03`), the program
raises `ValueError` — it neither produces the image the claim's shift-by-2
rule predicts (grid `[255]`) nor any 8-bit grid at all. -/
theorem get_frame_bayer10_shift_cex :
    (0x0110000D : Nat) ∈ multibitFormats ∧
    ((0x3FF : Nat) >>> 2) % 256 = 255 ∧
    (get_frame 0 1 1 0x0110000D [0xFF, 0x03]).1 = GetFrameOutcome.raised ∧
    (get_frame 0 1 1 0x0110000D [0xFF, 0x03]).1 ≠
      GetFrameOutcome.image ⟨Conversion.bayerRG2BGR, [255]⟩ ∧
    returnsNormally (get_frame 0 1 1 0x0110000D [0xFF, 0x03]).1 = false := by
  decide

/-- Claim C2 (amended): for every packed multi-bit Bayer frame (any of the
four 10/12-bit codes) fetched successfully into a buffer covering the
reported samples, `get_frame` raises `ValueError` instead of decoding: the
ctypes slice on line 222 becomes an `int64` numpy array whose `uint16` view
has four times too many elements, so the reshape fails before the intended
uniform shift-by-4 on line 223 executes. -/
theorem get_frame_multibit_raises (hgt wdt fmt : Nat) (payload : List Nat)
    (hfmt : fmt ∈ multibitFormats)
    (hlen : hgt * wdt * 2 ≤ payload.length) :
    (get_frame 0 hgt wdt fmt payload).1 = GetFrameOutcome.raised ∧
    returnsNormally (get_frame 0 hgt wdt fmt payload).1 = false := by
  have hne : fmt ≠ BAYER_RG8 := by
    intro hf
    rw [hf] at hfmt
    simp [multibitFormats, BAYER_RG8] at hfmt
  have hval : (get_frame 0 hgt wdt fmt payload).1 = GetFrameOutcome.raised := by
    simp [get_frame, hne, hfmt]
  exact ⟨hval, by rw [hval]; rfl⟩

/-- Witness for the amended C2: the 1x1 BayerRG10 frame with sample `0x3FF`
raises rather than decoding. -/
theorem get_frame_multibit_raises_witness :
    (0x0110000D : Nat) ∈ multibitFormats ∧
    1 * 1 * 2 ≤ ([0xFF, 0x03] : List Nat).length ∧
    (get_frame 0 1 1 0x0110000D [0xFF, 0x03]).1 = GetFrameOutcome.raised ∧
    returnsNormally (get_frame 0 1 1 0x0110000D [0xFF, 0x03]).1 = false := by
  have h := get_frame_multibit_raises 1 1 0x0110000D [0xFF, 0x03]
    (by decide) (by decide)
  exact ⟨by decide, by decide, h.1, h.2⟩

/-- Claim C3 counterexample: the timeout outcome of `get_frame` is the very
same value `none` that a successful fetch with an unrecognized pixel format
produces — the code has no distinct `FrameTimeoutError`, so the timeout result
is not distinguishable from a decode failure. -/
theorem get_frame_timeout_indistinct_cex :
    (get_frame 0x80000007 1 1 BAYER_RG8 [0]).1 = GetFrameOutcome.noneResult ∧
    (get_frame 0 1 1 0xDEAD [0]).1 = GetFrameOutcome.noneResult ∧
    (get_frame 0x80000007 1 1 BAYER_RG8 [0]).1 = (get_frame 0 1 1 0xDEAD [0]).1 := by
  decide

/-- Claim C3 (amended): for every timeout value, a `get_frame` call whose
fetch does not deliver a frame (nonzero SDK status) returns `None` — the
generic failure value, shared with decode failures — and issues no
stream-state-changing SDK call, so the controller remains Streaming and ready
for a subsequent `get_frame` call. -/
theorem get_frame_timeout_none (ret : Int) (hgt wdt fmt : Nat)
    (payload : List Nat) (g : Bool) (hret : ret ≠ 0) :
    (get_frame ret hgt wdt fmt payload).1 = GetFrameOutcome.noneResult ∧
    streamingAfter g (get_frame ret hgt wdt fmt payload).2 = g := by
  refine ⟨by simp [get_frame, hret], ?_⟩
  simp [get_frame, hret, streamingAfter]

/-- Witness for the amended C3: a concrete timed-out fetch returns `None` and
leaves an active stream active. -/
theorem get_frame_timeout_none_witness :
    ((0x80000007 : Int) ≠ 0) ∧
    (get_frame 0x80000007 2 2 BAYER_RG8 [1, 2, 3, 4]).1 = GetFrameOutcome.noneResult ∧
    streamingAfter true (get_frame 0x80000007 2 2 BAYER_RG8 [1, 2, 3, 4]).2 = true := by
  have h := get_frame_timeout_none 0x80000007 2 2 BAYER_RG8 [1, 2, 3, 4] true (by decide)
  exact ⟨by decide, h.1, h.2⟩

/-- Claim C4: a successfully fetched frame with an unrecognized pixel-format
code decodes to `None` — on this branch the source touches no numpy at all, so
it returns normally (never a crash) and returns `None` rather than any garbage
image — the stream state is untouched, and the acquisition loop still performs
every iteration after the skipped frame. -/
theorem get_frame_unknown_format (hgt wdt fmt : Nat) (payload : List Nat)
    (g : Bool) (frames : List (Option Decoded)) (hfmt : ¬ recognized fmt) :
    (get_frame 0 hgt wdt fmt payload).1 = GetFrameOutcome.noneResult ∧
    streamingAfter g (get_frame 0 hgt wdt fmt payload).2 = g ∧
    (acquisition_loop (none :: frames)).2 = frames.length + 1 := by
  unfold recognized at hfmt
  push_neg at hfmt
  obtain ⟨h1, h2, h3, h4⟩ := hfmt
  refine ⟨by simp [get_frame, h1, h2, h3, h4], ?_, ?_⟩
  · simp [get_frame, h1, h2, h3, h4, streamingAfter]
  · simpa using acquisition_loop_length (none :: frames)

/-- Witness for C4: the unused code `0x12345678` is skipped as `None` with the
stream left active and the loop continuing. -/
theorem get_frame_unknown_format_witness :
    ¬ recognized 0x12345678 ∧
    (get_frame 0 2 2 0x12345678 [1, 2, 3, 4]).1 = GetFrameOutcome.noneResult ∧
    streamingAfter true (get_frame 0 2 2 0x12345678 [1, 2, 3, 4]).2 = true ∧
    (acquisition_loop [none]).2 = 1 := by
  have h := get_frame_unknown_format 2 2 0x12345678 [1, 2, 3, 4] true [] (by decide)
  exact ⟨by decide, h.1, h.2.1, by simpa using h.2.2⟩

/-- Claim C5 counterexample: after `set_trigger_mode "continuous"` the device
trigger mode is 0 (Off), not the Software configuration, yet
`software_trigger` with SDK status 0 still sends the command and reports
success — it silently succeeds instead of failing with a state error. -/
theorem software_trigger_no_mode_check_cex :
    (applyOps ⟨0, 0, 0⟩ (set_trigger_mode "continuous").1).triggerMode = 0 ∧
    (applyOps ⟨0, 0, 0⟩ (set_trigger_mode "continuous").1).triggerMode ≠ 1 ∧
    (software_trigger 0).1 = true ∧
    (software_trigger 0).2 = [SdkOp.setCommandValue "TriggerSoftware"] := by
  decide

/-- Claim C5 (amended): `software_trigger` checks no trigger mode — it always
sends the `TriggerSoftware` command and reports success exactly when the SDK
call returns 0, whatever the configured trigger mode; in particular it can
report success while the mode is not Software. -/
theorem software_trigger_mode_independent (ret : Int) :
    ((software_trigger ret).1 = true ↔ ret = 0) ∧
    (software_trigger ret).2 = [SdkOp.setCommandValue "TriggerSoftware"] := by
  refine ⟨?_, rfl⟩
  simp [software_trigger]

/-- Claim C6: on every failure branch of `connect` the SDK handle is not left
acquired; in particular, when handle creation succeeded and the device open
failed, `MV_CC_DestroyHandle` is issued before the error propagates. -/
theorem connect_no_handle_leak (e : ConnectEnv) (hfail : (connect e).1 = none) :
    handleHeld false (connect e).2 = false ∧
    (e.found = true → e.createRet = 0 →
      e.openRet ≠ 0 ∧ SdkOp.destroyHandle ∈ (connect e).2) := by
  by_cases hf : e.found = true
  · by_cases hc : e.createRet = 0
    · by_cases ho : e.openRet = 0
      · exfalso
        rw [connect, if_neg (by simp [hf]), if_neg (by simp [hc]),
          if_neg (by simp [ho])] at hfail
        dsimp only at hfail
        split_ifs at hfail <;> simp at hfail
      · have hops : (connect e).2 = [SdkOp.enumDevices,
            SdkOp.createHandle e.createRet, SdkOp.openDevice e.openRet,
            SdkOp.destroyHandle] := by
          rw [connect, if_neg (by simp [hf]), if_neg (by simp [hc]), if_pos ho]
        refine ⟨?_, fun _ _ => ⟨ho, ?_⟩⟩
        · rw [hops]
          simp [handleHeld]
        · rw [hops]
          simp
    · have hops : (connect e).2 = [SdkOp.enumDevices,
          SdkOp.createHandle e.createRet] := by
        rw [connect, if_neg (by simp [hf]), if_pos hc]
      refine ⟨?_, fun _ hc2 => absurd hc2 hc⟩
      rw [hops]
      simp [handleHeld, hc]
  · have hops : (connect e).2 = [SdkOp.enumDevices] := by
      rw [connect, if_pos hf]
    refine ⟨?_, fun hf2 => absurd hf2 hf⟩
    rw [hops]
    simp [handleHeld]

/-- Witness for C6: with the handle created (status 0) and the device open
failing (status 1), `connect` fails, destroys the handle, and leaves no handle
acquired. -/
theorem connect_no_handle_leak_witness :
    (connect ⟨true, 0, 1, 0, 0, 0, 0, 0, 0⟩).1 = none ∧
    handleHeld false (connect ⟨true, 0, 1, 0, 0, 0, 0, 0, 0⟩).2 = false ∧
    SdkOp.destroyHandle ∈ (connect ⟨true, 0, 1, 0, 0, 0, 0, 0, 0⟩).2 := by
  have h := connect_no_handle_leak ⟨true, 0, 1, 0, 0, 0, 0, 0, 0⟩ (by decide)
  exact ⟨by decide, h.1, (h.2 rfl rfl).2⟩

/-- Claim C9 counterexample: `get_frame` is not total at the public
interface — a successful fetch tagged `Mono8` raises (`cvtColor` rejects the
`int64` array built at line 229), as does one tagged with a multi-bit Bayer
code (`ValueError` from the reshape at line 222); the exception propagates,
so the outcome is neither a decoded image nor `None`. -/
theorem get_frame_raises_cex :
    (get_frame 0 1 1 MONO8 [7]).1 = GetFrameOutcome.raised ∧
    returnsNormally (get_frame 0 1 1 MONO8 [7]).1 = false ∧
    (get_frame 0 1 1 MONO8 [7]).1 ≠ GetFrameOutcome.noneResult ∧
    (get_frame 0 1 1 0x01100011 [0xF0, 0x0F]).1 = GetFrameOutcome.raised := by
  decide

/-- Claim C9 (amended): for every fetch status and every device-reported
pixel-format tag (with the transfer buffer covering the reported dimensions,
as allocated), `get_frame` returns `None` exactly when the fetch failed or the
format is unrecognized — both reported as the same `None` — and it raises
exactly when the fetch succeeded and the format is a multi-bit Bayer code or
`Mono8`; only on the remaining paths (`BayerRG8`, packed `BGR8`) does it
return a decoded image. -/
theorem get_frame_total (ret : Int) (hgt wdt fmt : Nat) (payload : List Nat)
    (hlen : hgt * wdt * 3 ≤ payload.length) :
    ((get_frame ret hgt wdt fmt payload).1 = GetFrameOutcome.noneResult ↔
      (ret ≠ 0 ∨ ¬ recognized fmt)) ∧
    ((get_frame ret hgt wdt fmt payload).1 = GetFrameOutcome.raised ↔
      (ret = 0 ∧ (fmt ∈ multibitFormats ∨ fmt = MONO8))) := by
  unfold get_frame recognized
  by_cases hr : ret = 0
  · subst hr
    split_ifs with h0 h1 h2 h3 h4 <;> simp_all <;> decide
  · simp [hr]

/-- Witness for the amended C9: a successful `BayerRG8` fetch on an adequate
buffer neither returns `None` nor raises. -/
theorem get_frame_total_witness :
    1 * 1 * 3 ≤ ([5, 6, 7] : List Nat).length ∧
    ((get_frame 0 1 1 BAYER_RG8 [5, 6, 7]).1 = GetFrameOutcome.noneResult ↔
      ((0 : Int) ≠ 0 ∨ ¬ recognized BAYER_RG8)) ∧
    ((get_frame 0 1 1 BAYER_RG8 [5, 6, 7]).1 = GetFrameOutcome.raised ↔
      ((0 : Int) = 0 ∧ (BAYER_RG8 ∈ multibitFormats ∨ BAYER_RG8 = MONO8))) := by
  have h := get_frame_total 0 1 1 BAYER_RG8 [5, 6, 7] (by decide)
  exact ⟨by decide, h.1, h.2⟩

/-- Claim C10: `set_trigger_mode` called with a mode string other than
`continuous`, `software` or `hardware` raises `ValueError` having performed no
device parameter write, so the device trigger configuration is unchanged. -/
theorem set_trigger_mode_unknown_raises (mode : String) (c : TriggerConfig)
    (h1 : mode ≠ "continuous") (h2 : mode ≠ "software") (h3 : mode ≠ "hardware") :
    set_trigger_mode mode = ([], true) ∧
    applyOps c (set_trigger_mode mode).1 = c := by
  have hm : set_trigger_mode mode = ([], true) := by
    simp [set_trigger_mode, h1, h2, h3]
  refine ⟨hm, ?_⟩
  rw [hm]
  rfl

/-- Witness for C10: the unknown mode string `burst` raises `ValueError` and
leaves a sample trigger configuration untouched. -/
theorem set_trigger_mode_unknown_raises_witness :
    ("burst" ≠ "continuous") ∧ ("burst" ≠ "software") ∧ ("burst" ≠ "hardware") ∧
    set_trigger_mode "burst" = ([], true) ∧
    applyOps ⟨0, 7, 0⟩ (set_trigger_mode "burst").1 = ⟨0, 7, 0⟩ := by
  have h := set_trigger_mode_unknown_raises "burst" ⟨0, 7, 0⟩
    (by decide) (by decide) (by decide)
  exact ⟨by decide, by decide, by decide, h.1, h.2⟩
